import Mathlib

/-!
Shallow embedding of the BLS-SPAIN operator dashboard's client-side
reconciliation core (React front end, `src/frontend/src`):

* `App.js` — WebSocket message routing and the system-status store;
* `SystemControls` (src/unnamed/part_000) — start / stop / test-check
  action handlers with busy flag and the stop confirmation gate;
* `Dashboard.js` — the dashboard's own `runTestCheck` handler;
* `AppointmentSlots.js` — slot cache, booking modal and `confirmBooking`;
* `SystemLogs.js` — log stream, live append, page fetch, clear and
  text-search filtering.

Asynchronous REST calls are embedded by passing the server's response as
an explicit `Except` argument to each handler; each handler returns the
updated component state together with the list of REST calls it issued
and the list of alert messages it showed.  A click on a button that the
JSX renders as `disabled` (or does not render at all) never runs its
handler, so the `click*` wrappers guard each handler with the exact
render/disabled condition of the corresponding JSX.
-/

/-- `SystemStatus.status` values (`stopped | running | paused | error`). -/
inductive StatusKind
  | stopped
  | running
  | paused
  | error
deriving DecidableEq, Repr

/-- The singleton system-status record delivered by `GET /system/status`
and by `system_status` push events. -/
structure SystemStatus where
  status : StatusKind
  last_check : Option String
  total_checks : Nat
  slots_found : Nat
  successful_bookings : Nat
  error_count : Nat
  uptime_minutes : Nat
deriving DecidableEq, Repr

/-- Log levels (`info | success | warning | error`). -/
inductive LogLevel
  | info
  | success
  | warning
  | error
deriving DecidableEq, Repr

/-- One activity-log record as rendered by `SystemLogs.js`. -/
structure LogEntry where
  level : LogLevel
  step : Option String
  message : String
  timestamp : String
  details : Option String
deriving DecidableEq, Repr

/-- Slot status values (`available | booked | failed`). -/
inductive SlotStatus
  | available
  | booked
  | failed
deriving DecidableEq, Repr

/-- One appointment slot as rendered by `AppointmentSlots.js`. -/
structure Slot where
  id : String
  status : SlotStatus
  visa_type : Option String
  visa_category : Option String
  location : Option String
  appointment_date : Option String
  appointment_time : Option String
  found_at : Option String
  available_slots : Nat
  booking_details : Option String
deriving DecidableEq, Repr

/-- The REST requests the client can issue (base path `/api`). -/
inductive RestCall
  | getStatus
  | getLogs (limit : Nat) (level : Option LogLevel)
  | getAvailable (limit : Option Nat)
  | postStart (check_interval_minutes : Nat)
  | postStop
  | postTestCheck
  | postBook (slot_id : String) (confirm_booking : Bool)
deriving DecidableEq, Repr

/-- A rejected axios request: `error.response?.data?.detail` is `detail`
(absent when the failure was pure transport), `error.message` is the
generic transport message. -/
structure ApiError where
  detail : Option String
  message : String
deriving DecidableEq, Repr

/-- A resolved axios response whose `status` field the handler inspects. -/
structure HttpResp (α : Type) where
  status : Nat
  data : α
deriving DecidableEq, Repr

/-- Result of running one handler: the new component state, the REST
calls it issued (in order) and the alert messages it showed. -/
structure Effect (σ : Type) where
  state : σ
  calls : List RestCall
  alerts : List String
deriving DecidableEq, Repr

/-- `error.response?.data?.detail || error.message` — JS `||` falls
through on an absent and on an empty `detail`. -/
def errDetail (e : ApiError) : String :=
  match e.detail with
  | some d => if d = "" then e.message else d
  | none => e.message

/- ## SystemControls (src/unnamed/part_000) -/

/-- Local state of the `SystemControls` component:
`isLoading`, `checkInterval`, `showConfirmStop`. -/
structure SCState where
  isLoading : Bool
  checkInterval : Nat
  showConfirmStop : Bool
deriving DecidableEq, Repr

/-- `startSystem`: POST `/system/start`; on a 200 response alert success
and refresh the status (`onStatusUpdate`); on a rejected request alert
with the server detail when available; `finally` clears `isLoading`. -/
def startSystem (st : SCState) (resp : Except ApiError (HttpResp Unit)) :
    Effect SCState :=
  match resp with
  | .ok r =>
    if r.status = 200 then
      ⟨{ st with isLoading := false },
        [RestCall.postStart st.checkInterval, RestCall.getStatus],
        ["System started successfully! 🚀"]⟩
    else
      ⟨{ st with isLoading := false }, [RestCall.postStart st.checkInterval], []⟩
  | .error e =>
    ⟨{ st with isLoading := false }, [RestCall.postStart st.checkInterval],
      ["Failed to start system: " ++ errDetail e]⟩

/-- `stopSystem`: POST `/system/stop`; on a 200 response alert success,
refresh the status and reset `showConfirmStop`; on a rejected request
alert with the server detail when available (confirmation state kept);
`finally` clears `isLoading`. -/
def stopSystem (st : SCState) (resp : Except ApiError (HttpResp Unit)) :
    Effect SCState :=
  match resp with
  | .ok r =>
    if r.status = 200 then
      ⟨{ st with isLoading := false, showConfirmStop := false },
        [RestCall.postStop, RestCall.getStatus],
        ["System stopped successfully! 🛑"]⟩
    else
      ⟨{ st with isLoading := false }, [RestCall.postStop], []⟩
  | .error e =>
    ⟨{ st with isLoading := false }, [RestCall.postStop],
      ["Failed to stop system: " ++ errDetail e]⟩

/-- Payload of `POST /test/check-once`. -/
structure TestData where
  success : Bool
  slots_found : Nat
deriving DecidableEq, Repr

/-- `runTestCheck` in `SystemControls`: POST `/test/check-once`; branches
on `response.data.success`; on a rejected request alerts with the server
detail when available. -/
def runTestCheck (st : SCState) (resp : Except ApiError TestData) :
    Effect SCState :=
  match resp with
  | .ok d =>
    if d.success then
      ⟨{ st with isLoading := false }, [RestCall.postTestCheck, RestCall.getStatus],
        ["✅ Test completed successfully! Slots found: " ++ toString d.slots_found]⟩
    else
      ⟨{ st with isLoading := false }, [RestCall.postTestCheck],
        ["❌ Test check failed. Please check the logs for more details."]⟩
  | .error e =>
    ⟨{ st with isLoading := false }, [RestCall.postTestCheck],
      ["❌ Test check failed: " ++ errDetail e]⟩

/-- Click on the Start button: rendered only while the system is stopped
(`isSystemStopped && ...`) and carries `disabled=isLoading`. -/
def clickStart (status : StatusKind) (st : SCState)
    (resp : Except ApiError (HttpResp Unit)) : Effect SCState :=
  if status = StatusKind.stopped ∧ st.isLoading = false then
    startSystem st resp
  else ⟨st, [], []⟩

/-- Click on the first-phase Stop button (`setShowConfirmStop(true)`):
rendered only while the system is running and `showConfirmStop` is
false; it issues no REST call. -/
def clickRequestStop (status : StatusKind) (st : SCState) : Effect SCState :=
  if status = StatusKind.running ∧ st.showConfirmStop = false then
    ⟨{ st with showConfirmStop := true }, [], []⟩
  else ⟨st, [], []⟩

/-- Click on the "Yes, Stop" button: rendered only while the system is
running and `showConfirmStop` is true, and carries `disabled=isLoading`. -/
def clickYesStop (status : StatusKind) (st : SCState)
    (resp : Except ApiError (HttpResp Unit)) : Effect SCState :=
  if status = StatusKind.running ∧ st.showConfirmStop = true ∧
      st.isLoading = false then
    stopSystem st resp
  else ⟨st, [], []⟩

/-- Click on the "Run Test Check" button: always rendered, carries
`disabled=isLoading`. -/
def clickTestCheck (st : SCState) (resp : Except ApiError TestData) :
    Effect SCState :=
  if st.isLoading = false then runTestCheck st resp else ⟨st, [], []⟩

/- ## Dashboard (src/frontend/src/components/Dashboard.js) -/

/-- Local state of the `Dashboard` component. -/
structure DashState where
  recentLogs : List LogEntry
  availableSlots : List Slot
  isLoading : Bool
deriving DecidableEq, Repr

/-- `fetchRecentData`: GET `/logs?limit=10` then GET
`/appointments/available?limit=5` inside one `try`; a failure of the
first request skips the second. -/
def fetchRecentData (st : DashState)
    (logsResp : Except ApiError (List LogEntry))
    (slotsResp : Except ApiError (List Slot)) : Effect DashState :=
  match logsResp with
  | .error _ =>
    ⟨{ st with isLoading := false }, [RestCall.getLogs 10 none], []⟩
  | .ok ls =>
    match slotsResp with
    | .error _ =>
      ⟨{ st with recentLogs := ls, isLoading := false },
        [RestCall.getLogs 10 none, RestCall.getAvailable (some 5)], []⟩
    | .ok ss =>
      ⟨{ st with recentLogs := ls, availableSlots := ss, isLoading := false },
        [RestCall.getLogs 10 none, RestCall.getAvailable (some 5)], []⟩

/-- `runTestCheck` in `Dashboard`: POST `/test/check-once`; on success
re-fetches the dashboard data and refreshes the status; on a rejected
request it alerts with `error.message` only — the `detail` field of the
response is not consulted in this handler. -/
def dashboardRunTestCheck (st : DashState)
    (resp : Except ApiError TestData)
    (logsResp : Except ApiError (List LogEntry))
    (slotsResp : Except ApiError (List Slot)) : Effect DashState :=
  match resp with
  | .ok d =>
    if d.success then
      let eff := fetchRecentData st logsResp slotsResp
      ⟨{ eff.state with isLoading := false },
        RestCall.postTestCheck :: eff.calls ++ [RestCall.getStatus],
        ("Test completed! Found " ++ toString d.slots_found ++ " slots.")
          :: eff.alerts⟩
    else
      ⟨{ st with isLoading := false }, [RestCall.postTestCheck],
        ["Test check failed. Check logs for details."]⟩
  | .error e =>
    ⟨{ st with isLoading := false }, [RestCall.postTestCheck],
      ["Test check failed: " ++ e.message]⟩

/-- Click on the dashboard "Test Check" button (`disabled=isLoading`). -/
def clickDashboardTest (st : DashState)
    (resp : Except ApiError TestData)
    (logsResp : Except ApiError (List LogEntry))
    (slotsResp : Except ApiError (List Slot)) : Effect DashState :=
  if st.isLoading = false then
    dashboardRunTestCheck st resp logsResp slotsResp
  else ⟨st, [], []⟩

/- ## AppointmentSlots (src/frontend/src/components/AppointmentSlots.js) -/

/-- Local state of the `AppointmentSlots` component. -/
structure ASState where
  slots : List Slot
  isLoading : Bool
  selectedSlot : Option Slot
  showBookingModal : Bool
  bookingConfirmed : Bool
deriving DecidableEq, Repr

/-- `fetchSlots`: GET `/appointments/available`; on success the cached
slot collection is replaced wholesale by the fetched one; on failure it
is left unchanged; `finally` clears `isLoading`. -/
def fetchSlots (st : ASState) (resp : Except ApiError (List Slot)) :
    Effect ASState :=
  match resp with
  | .ok ss =>
    ⟨{ st with slots := ss, isLoading := false },
      [RestCall.getAvailable none], []⟩
  | .error _ =>
    ⟨{ st with isLoading := false }, [RestCall.getAvailable none], []⟩

/-- Payload of a successful `POST /appointments/book`. -/
structure BookData where
  confirmation_id : String
deriving DecidableEq, Repr

/-- `handleBookSlot`: select a slot and open the booking modal with the
confirmation checkbox cleared; no REST call. -/
def handleBookSlot (st : ASState) (slot : Slot) : Effect ASState :=
  ⟨{ st with
      selectedSlot := some slot, showBookingModal := true,
      bookingConfirmed := false }, [], []⟩

/-- `confirmBooking`: `if (!selectedSlot || !bookingConfirmed) return;`
then POST `/appointments/book`; on a 200 response alert success, close
the modal, re-fetch the slots and refresh the status; on a rejected
request only alert (slots untouched); `finally` clears `isLoading`. -/
def confirmBooking (st : ASState)
    (bookResp : Except ApiError (HttpResp BookData))
    (slotsResp : Except ApiError (List Slot)) : Effect ASState :=
  match st.selectedSlot, st.bookingConfirmed with
  | some slot, true =>
    (match bookResp with
     | .ok r =>
       if r.status = 200 then
         let eff := fetchSlots { st with showBookingModal := false } slotsResp
         ⟨{ eff.state with isLoading := false },
           RestCall.postBook slot.id true :: eff.calls ++ [RestCall.getStatus],
           ("🎉 Appointment booked successfully! Confirmation ID: "
              ++ r.data.confirmation_id) :: eff.alerts⟩
       else
         ⟨{ st with isLoading := false }, [RestCall.postBook slot.id true], []⟩
     | .error e =>
       ⟨{ st with isLoading := false }, [RestCall.postBook slot.id true],
         ["❌ Booking failed: " ++ errDetail e]⟩)
  | _, _ => ⟨st, [], []⟩

/-- Click on "Confirm Booking": the modal renders only while
`showBookingModal && selectedSlot`, and the button carries
`disabled = !bookingConfirmed || isLoading`. -/
def clickConfirmBooking (st : ASState)
    (bookResp : Except ApiError (HttpResp BookData))
    (slotsResp : Except ApiError (List Slot)) : Effect ASState :=
  if st.showBookingModal = true ∧ st.selectedSlot.isSome = true ∧
      st.bookingConfirmed = true ∧ st.isLoading = false then
    confirmBooking st bookResp slotsResp
  else ⟨st, [], []⟩

/- ## SystemLogs (src/frontend/src/components/SystemLogs.js) -/

/-- Parsed inbound WebSocket messages `{type, data}`. -/
inductive WsMessage
  | log (entry : LogEntry)
  | slotsFound (count : Nat)
  | systemStatus (s : SystemStatus)
  | other
deriving DecidableEq, Repr

/-- Local state of the `SystemLogs` component; `selectedLevel = none`
stands for the `'all'` option. -/
structure SLState where
  logs : List LogEntry
  isLoading : Bool
  selectedLevel : Option LogLevel
  autoScroll : Bool
  searchTerm : String
deriving DecidableEq, Repr

/-- `handleMessage`: a `log` push event prepends its entry to the stream
(`setLogs(prev => [message.data, ...prev])`); every other message type
is ignored by this component; no REST call is made. -/
def handleMessage (st : SLState) (m : WsMessage) : Effect SLState :=
  match m with
  | .log e => ⟨{ st with logs := e :: st.logs }, [], []⟩
  | _ => ⟨st, [], []⟩

/-- Prepend a whole sequence of live `log` push events, one at a time,
through `handleMessage`. -/
def appendLiveMany (st : SLState) (es : List LogEntry) : SLState :=
  es.foldl (fun s e => (handleMessage s (WsMessage.log e)).state) st

/-- `fetchLogs`: GET `/logs?limit=100[&level]`; on success the stream is
replaced wholesale by the fetched page; on failure it is unchanged;
`finally` clears `isLoading`. -/
def fetchLogs (st : SLState) (resp : Except ApiError (List LogEntry)) :
    Effect SLState :=
  match resp with
  | .ok ls =>
    ⟨{ st with logs := ls, isLoading := false },
      [RestCall.getLogs 100 st.selectedLevel], []⟩
  | .error _ =>
    ⟨{ st with isLoading := false },
      [RestCall.getLogs 100 st.selectedLevel], []⟩

/-- `clearLogs`: behind a `window.confirm` gate, set the displayed log
collection to `[]`; no REST call either way. -/
def clearLogs (st : SLState) (confirmed : Bool) : Effect SLState :=
  if confirmed then ⟨{ st with logs := [] }, [], []⟩ else ⟨st, [], []⟩

/-- Character-wise lower casing of a JS string (`toLowerCase`). -/
def lowerChars (s : String) : List Char :=
  s.toList.map Char.toLower

/-- The filter predicate of `filteredLogs`:
`log.message.toLowerCase().includes(t) || (log.step && log.step.toLowerCase().includes(t))`
with `t = searchTerm.toLowerCase()`; a JS empty-string `step` is falsy. -/
def matchesCode (term : String) (log : LogEntry) : Bool :=
  decide (lowerChars term <:+: lowerChars log.message) ||
    (match log.step with
     | some s => (s != "") && decide (lowerChars term <:+: lowerChars s)
     | none => false)

/-- `filteredLogs`: the derived, non-destructive search view. -/
def filteredLogs (logs : List LogEntry) (term : String) : List LogEntry :=
  logs.filter (matchesCode term)

/-- The specification's description of the search view: entries whose
`message`, or whose `step` when present, case-insensitively contains the
term as a substring. -/
def matchesSpec (term : String) (log : LogEntry) : Prop :=
  lowerChars term <:+: lowerChars log.message ∨
    ∃ s, log.step = some s ∧ lowerChars term <:+: lowerChars s

/- ## App (src/frontend/src/App.js) -/

/-- Top-level `App` state: the single authoritative `systemStatus`
record and the WebSocket connection flag. -/
structure AppState where
  systemStatus : SystemStatus
  isConnected : Bool
deriving DecidableEq, Repr

/-- `handleWebSocketMessage` in `App.js`: a `system_status` event
replaces `systemStatus` wholesale; a `slots_found` event triggers a
status re-fetch; `log` and unknown types are only logged. -/
def appHandleWebSocketMessage (st : AppState) (m : WsMessage) :
    Effect AppState :=
  match m with
  | .log _ => ⟨st, [], []⟩
  | .slotsFound _ => ⟨st, [RestCall.getStatus], []⟩
  | .systemStatus s => ⟨{ st with systemStatus := s }, [], []⟩
  | .other => ⟨st, [], []⟩

/-- `fetchSystemStatus` in `App.js`: GET `/system/status`; on success
replace `systemStatus` wholesale; on failure leave it unchanged. -/
def appFetchSystemStatus (st : AppState)
    (resp : Except ApiError SystemStatus) : Effect AppState :=
  match resp with
  | .ok s => ⟨{ st with systemStatus := s }, [RestCall.getStatus], []⟩
  | .error _ => ⟨st, [RestCall.getStatus], []⟩

/-- One application step of the Status Store: a successful REST snapshot
(`applySnapshot`, through `fetchSystemStatus`) or a `system_status` push
event (`applyPush`, through `handleWebSocketMessage`). -/
inductive StatusCall
  | applySnapshot (s : SystemStatus)
  | applyPush (s : SystemStatus)
deriving DecidableEq, Repr

/-- The payload carried by a Status Store call. -/
def StatusCall.payload : StatusCall → SystemStatus
  | .applySnapshot s => s
  | .applyPush s => s

/-- Apply one Status Store call through the corresponding `App.js`
handler. -/
def applyStatusCall (st : AppState) (c : StatusCall) : AppState :=
  match c with
  | .applySnapshot s => (appFetchSystemStatus st (Except.ok s)).state
  | .applyPush s => (appHandleWebSocketMessage st (WsMessage.systemStatus s)).state

/-- Run a whole sequence of Status Store calls in order. -/
def runStatusCalls (st : AppState) (cs : List StatusCall) : AppState :=
  cs.foldl applyStatusCall st

/- ## Whole-client composition -/

/-- The client state visible across pages: the `App` state, the
`AppointmentSlots` page state and the `SystemLogs` page state. -/
structure Client where
  app : AppState
  slotsPage : ASState
  logsPage : SLState
deriving DecidableEq, Repr

/-- `clearLogs` lifted to the whole client: it only ever touches the
`SystemLogs` page state. -/
def clientClearLogs (cl : Client) (confirmed : Bool) : Effect Client :=
  let eff := clearLogs cl.logsPage confirmed
  ⟨{ cl with logsPage := eff.state }, eff.calls, eff.alerts⟩

/- ## Helper lemmas -/

/-- The Boolean filter predicate of `filteredLogs` agrees with the
specification's description of the search view. -/
lemma matchesCode_iff (term : String) (log : LogEntry) :
    matchesCode term log = true ↔ matchesSpec term log := by
  unfold matchesCode matchesSpec
  cases h : log.step with
  | none => simp [h]
  | some s =>
    by_cases hs : s = ""
    · subst hs
      simp [h]
      intro hinf
      have h0 : lowerChars term = [] := List.eq_nil_of_infix_nil hinf
      rw [h0]
      exact List.nil_infix
    · simp [h, hs]

/-- Prepending live entries through `handleMessage` accumulates them in
reverse arrival order in front of the existing stream. -/
lemma appendLiveMany_logs (st : SLState) (es : List LogEntry) :
    (appendLiveMany st es).logs = es.reverse ++ st.logs := by
  induction es generalizing st with
  | nil => rfl
  | cons e es ih =>
    have h1 : appendLiveMany st (e :: es)
        = appendLiveMany { st with logs := e :: st.logs } es := rfl
    rw [h1, ih]
    simp

/-- `confirmBooking` is a local no-op whenever the modal guard
`if (!selectedSlot || !bookingConfirmed) return;` fires. -/
lemma confirmBooking_guard (st : ASState)
    (rb : Except ApiError (HttpResp BookData))
    (rs : Except ApiError (List Slot))
    (h : ¬ ∃ slot, st.selectedSlot = some slot ∧ st.bookingConfirmed = true) :
    confirmBooking st rb rs = ⟨st, [], []⟩ := by
  cases hsel : st.selectedSlot with
  | none => cases hb : st.bookingConfirmed <;> simp [confirmBooking, hsel, hb]
  | some slot =>
    cases hb : st.bookingConfirmed with
    | false => simp [confirmBooking, hsel, hb]
    | true => exact absurd ⟨slot, hsel, hb⟩ h

/- ## Claim theorems -/

/-- C1: the Status Store is last-write-wins — for every sequence of
`applySnapshot` (successful REST status fetch) and `applyPush`
(`system_status` push event) calls, each call replaces the whole
`SystemStatus` record unconditionally, and afterwards the current value
equals the payload of the last call made, regardless of its source. -/
theorem statusStore_lastWriteWins (st : AppState) (cs : List StatusCall)
    (c : StatusCall) :
    (runStatusCalls st (cs ++ [c])).systemStatus = c.payload := by
  induction cs generalizing st with
  | nil => cases c <;> rfl
  | cons d rest ih =>
    have h1 : runStatusCalls st ((d :: rest) ++ [c])
        = runStatusCalls (applyStatusCall st d) (rest ++ [c]) := rfl
    rw [h1]
    exact ih (applyStatusCall st d)

/-- C6: after appending any number of live entries, a successful page
load (`fetchLogs`) replaces the stream wholesale with exactly the
fetched sequence — no previously live-appended entry remains. -/
theorem loadPage_replacesWholesale (st : SLState) (es fetched : List LogEntry) :
    (appendLiveMany st es).logs = es.reverse ++ st.logs ∧
    (fetchLogs (appendLiveMany st es) (Except.ok fetched)).state.logs
      = fetched :=
  ⟨appendLiveMany_logs st es, rfl⟩

/-- C7: the text-search view contains exactly the entries whose
`message`, or whose `step` when present, case-insensitively contains
the search term as a substring, and it is a non-destructive sublist of
the unmodified underlying collection. -/
theorem searchFilter_exact (logs : List LogEntry) (term : String)
    (e : LogEntry) :
    (e ∈ filteredLogs logs term ↔ e ∈ logs ∧ matchesSpec term e) ∧
    List.Sublist (filteredLogs logs term) logs := by
  constructor
  · rw [filteredLogs, List.mem_filter]
    constructor
    · rintro ⟨hm, hc⟩
      exact ⟨hm, (matchesCode_iff term e).mp hc⟩
    · rintro ⟨hm, hs⟩
      exact ⟨hm, (matchesCode_iff term e).mpr hs⟩
  · exact List.filter_sublist logs

/-- C8: one `log` push event prepends exactly that entry to the front
of the in-memory stream, keeps every existing entry in relative order,
and issues no REST call. -/
theorem appendLive_prepends (st : SLState) (e : LogEntry) :
    (handleMessage st (WsMessage.log e)).state.logs = e :: st.logs ∧
    (handleMessage st (WsMessage.log e)).calls = [] :=
  ⟨rfl, rfl⟩

/-- C10: a confirmed Clear View empties only the displayed log
collection; it issues no REST call and leaves the system status, the
slot collection, the selected level and the search term unchanged. -/
theorem clearView_framesClientState (cl : Client) :
    (clientClearLogs cl true).state.logsPage.logs = [] ∧
    (clientClearLogs cl true).calls = [] ∧
    (clientClearLogs cl true).alerts = [] ∧
    (clientClearLogs cl true).state.app = cl.app ∧
    (clientClearLogs cl true).state.slotsPage = cl.slotsPage ∧
    (clientClearLogs cl true).state.logsPage.selectedLevel
      = cl.logsPage.selectedLevel ∧
    (clientClearLogs cl true).state.logsPage.searchTerm
      = cl.logsPage.searchTerm :=
  ⟨rfl, rfl, rfl, rfl, rfl, rfl, rfl⟩

/-- C2: without the confirmation flag (or without a selected slot),
`confirmBooking` is rejected locally with no REST call; the POST to
`/appointments/book` is only ever issued from a state whose confirmation
flag is true. -/
theorem booking_requiresConfirmation (st : ASState)
    (rb : Except ApiError (HttpResp BookData))
    (rs : Except ApiError (List Slot))
    (h : st.bookingConfirmed = false ∨ st.selectedSlot = none) :
    confirmBooking st rb rs = ⟨st, [], []⟩ ∧
    ∀ st2 rb2 rs2 sid b,
      RestCall.postBook sid b ∈ (confirmBooking st2 rb2 rs2).calls →
        st2.bookingConfirmed = true := by
  constructor
  · apply confirmBooking_guard
    rintro ⟨slot, hsel, hc⟩
    rcases h with h | h
    · rw [h] at hc
      exact Bool.false_ne_true hc
    · rw [h] at hsel
      exact Option.noConfusion hsel
  · intro st2 rb2 rs2 sid b hmem
    by_cases hb : st2.bookingConfirmed = true
    · exact hb
    · rw [confirmBooking_guard st2 rb2 rs2
        (by rintro ⟨slot, _, hc⟩; exact hb hc)] at hmem
      simp at hmem

/-- Witness for C2 at a concrete unconfirmed state. -/
theorem booking_requiresConfirmation_witness :
    confirmBooking ⟨[], false, none, false, false⟩
        (Except.error ⟨none, "Network Error"⟩) (Except.ok [])
      = ⟨⟨[], false, none, false, false⟩, [], []⟩ :=
  (booking_requiresConfirmation ⟨[], false, none, false, false⟩
    (Except.error ⟨none, "Network Error"⟩) (Except.ok [])
    (Or.inl rfl)).1

/-- C3: while an action's busy flag (`isLoading`) is set, a second click
on the start, confirm-stop, test-check (both pages) or confirm-booking
control is rejected client-side — the state is unchanged and no
additional REST call is issued. -/
theorem busyLock_rejectsSecondInvocation (status : StatusKind)
    (sc : SCState) (db : DashState) (st : ASState)
    (r1 r2 : Except ApiError (HttpResp Unit))
    (r3 r4 : Except ApiError TestData)
    (rl : Except ApiError (List LogEntry))
    (rs1 rs2 : Except ApiError (List Slot))
    (rb : Except ApiError (HttpResp BookData))
    (hsc : sc.isLoading = true) (hdb : db.isLoading = true)
    (hst : st.isLoading = true) :
    clickStart status sc r1 = ⟨sc, [], []⟩ ∧
    clickYesStop status sc r2 = ⟨sc, [], []⟩ ∧
    clickTestCheck sc r3 = ⟨sc, [], []⟩ ∧
    clickDashboardTest db r4 rl rs1 = ⟨db, [], []⟩ ∧
    clickConfirmBooking st rb rs2 = ⟨st, [], []⟩ := by
  refine ⟨?_, ?_, ?_, ?_, ?_⟩ <;>
    simp [clickStart, clickYesStop, clickTestCheck, clickDashboardTest,
      clickConfirmBooking, hsc, hdb, hst]

/-- Witness for C3 at concrete busy states. -/
theorem busyLock_rejectsSecondInvocation_witness :
    clickStart StatusKind.stopped ⟨true, 2, false⟩
        (Except.error ⟨none, "Network Error"⟩)
      = ⟨⟨true, 2, false⟩, [], []⟩ ∧
    clickConfirmBooking ⟨[], true, none, false, true⟩
        (Except.error ⟨none, "Network Error"⟩) (Except.ok [])
      = ⟨⟨[], true, none, false, true⟩, [], []⟩ := by
  have h := busyLock_rejectsSecondInvocation StatusKind.stopped
    ⟨true, 2, false⟩ ⟨[], [], true⟩ ⟨[], true, none, false, true⟩
    (Except.error ⟨none, "Network Error"⟩)
    (Except.error ⟨none, "Network Error"⟩)
    (Except.error ⟨none, "Network Error"⟩)
    (Except.error ⟨none, "Network Error"⟩)
    (Except.ok []) (Except.ok []) (Except.ok [])
    (Except.error ⟨none, "Network Error"⟩) rfl rfl rfl
  exact ⟨h.1, h.2.2.2.2⟩

/-- C4: when the booking POST is rejected server-side, the failure
branch leaves the locally cached slot collection unchanged and issues no
slot re-fetch; only a Slot Registry refresh (`fetchSlots` succeeding)
replaces the cached collection. -/
theorem bookingFailure_leavesSlotCache (st : ASState) (slot : Slot)
    (e : ApiError) (rs : Except ApiError (List Slot))
    (fetched : List Slot)
    (hsel : st.selectedSlot = some slot) (hc : st.bookingConfirmed = true) :
    (confirmBooking st (Except.error e) rs).state.slots = st.slots ∧
    (confirmBooking st (Except.error e) rs).calls
      = [RestCall.postBook slot.id true] ∧
    (fetchSlots st (Except.ok fetched)).state.slots = fetched := by
  refine ⟨?_, ?_, rfl⟩ <;> simp [confirmBooking, hsel, hc]

/-- Witness for C4 at a concrete confirmed state with a rejected POST. -/
theorem bookingFailure_leavesSlotCache_witness :
    (confirmBooking
        ⟨[⟨"slot-1", SlotStatus.available, none, none, none, none, none,
            none, 1, none⟩], false,
          some ⟨"slot-1", SlotStatus.available, none, none, none, none,
            none, none, 1, none⟩, true, true⟩
        (Except.error ⟨some "Booking rejected", "Request failed"⟩)
        (Except.ok [])).state.slots
      = [⟨"slot-1", SlotStatus.available, none, none, none, none, none,
          none, 1, none⟩] ∧
    (confirmBooking
        ⟨[⟨"slot-1", SlotStatus.available, none, none, none, none, none,
            none, 1, none⟩], false,
          some ⟨"slot-1", SlotStatus.available, none, none, none, none,
            none, none, 1, none⟩, true, true⟩
        (Except.error ⟨some "Booking rejected", "Request failed"⟩)
        (Except.ok [])).calls
      = [RestCall.postBook "slot-1" true] := by
  have h := bookingFailure_leavesSlotCache
    ⟨[⟨"slot-1", SlotStatus.available, none, none, none, none, none,
        none, 1, none⟩], false,
      some ⟨"slot-1", SlotStatus.available, none, none, none, none,
        none, none, 1, none⟩, true, true⟩
    ⟨"slot-1", SlotStatus.available, none, none, none, none, none,
      none, 1, none⟩
    ⟨some "Booking rejected", "Request failed"⟩ (Except.ok []) []
    rfl rfl
  exact ⟨h.1, h.2.1⟩

/-- C5: stopping is two-phase — the first-phase click only raises the
confirmation flag and issues no REST call, the confirmed click is a
no-op unless the confirmation flag is raised, a successful stop resets
the confirmation flag, and a failed stop leaves it untouched. -/
theorem stop_twoPhaseConfirmation (status : StatusKind) (st : SCState)
    (r : Except ApiError (HttpResp Unit)) (e : ApiError) :
    (st.showConfirmStop = false → clickYesStop status st r = ⟨st, [], []⟩) ∧
    (clickRequestStop status st).calls = [] ∧
    (stopSystem st (Except.ok ⟨200, ()⟩)).state.showConfirmStop = false ∧
    (stopSystem st (Except.error e)).state.showConfirmStop
      = st.showConfirmStop := by
  refine ⟨?_, ?_, ?_, rfl⟩
  · intro h
    simp [clickYesStop, h]
  · unfold clickRequestStop
    split <;> rfl
  · simp [stopSystem]

/-- Witness for C5: an unconfirmed confirmed-stop click is a no-op, and
a successful stop resets the confirmation flag. -/
theorem stop_twoPhaseConfirmation_witness :
    clickYesStop StatusKind.running ⟨false, 2, false⟩
        (Except.error ⟨none, "Network Error"⟩)
      = ⟨⟨false, 2, false⟩, [], []⟩ ∧
    (stopSystem ⟨false, 2, true⟩
        (Except.ok ⟨200, ()⟩)).state.showConfirmStop = false :=
  ⟨(stop_twoPhaseConfirmation StatusKind.running ⟨false, 2, false⟩
      (Except.error ⟨none, "Network Error"⟩)
      ⟨none, "Network Error"⟩).1 rfl,
   (stop_twoPhaseConfirmation StatusKind.running ⟨false, 2, true⟩
      (Except.error ⟨none, "Network Error"⟩)
      ⟨none, "Network Error"⟩).2.2.1⟩

/-- Concrete rejected response carrying a server `detail` field. -/
def dashErr : ApiError :=
  ⟨some "Captcha service unavailable", "Request failed with status code 502"⟩

/-- C9 counterexample: the claim fails on `Dashboard.js`'s
`runTestCheck` — a rejected request whose response carries a
`detail` field is surfaced with the generic transport message
`error.message`, and not with the server detail. -/
theorem errorSurface_counterexample :
    dashErr.detail = some "Captcha service unavailable" ∧
    (dashboardRunTestCheck ⟨[], [], false⟩ (Except.error dashErr)
        (Except.ok []) (Except.ok [])).alerts
      = ["Test check failed: Request failed with status code 502"] ∧
    "Test check failed: Request failed with status code 502"
      ≠ "Test check failed: " ++ errDetail dashErr := by
  refine ⟨rfl, ?_, ?_⟩ <;> decide

/-- C9 amended: a rejected start, stop, SystemControls test check or
booking surfaces the server `detail` when present (and non-empty), else
the transport message — but the Dashboard's `runTestCheck` always
surfaces the transport `error.message`, ignoring `detail`. -/
theorem errorSurface_amended (sc : SCState) (st : ASState) (db : DashState)
    (slot : Slot) (e : ApiError)
    (rs : Except ApiError (List Slot))
    (rl : Except ApiError (List LogEntry))
    (rs2 : Except ApiError (List Slot))
    (hsel : st.selectedSlot = some slot) (hc : st.bookingConfirmed = true) :
    (startSystem sc (Except.error e)).alerts
      = ["Failed to start system: " ++ errDetail e] ∧
    (stopSystem sc (Except.error e)).alerts
      = ["Failed to stop system: " ++ errDetail e] ∧
    (runTestCheck sc (Except.error e)).alerts
      = ["❌ Test check failed: " ++ errDetail e] ∧
    (confirmBooking st (Except.error e) rs).alerts
      = ["❌ Booking failed: " ++ errDetail e] ∧
    (dashboardRunTestCheck db (Except.error e) rl rs2).alerts
      = ["Test check failed: " ++ e.message] := by
  refine ⟨rfl, rfl, rfl, ?_, rfl⟩
  simp [confirmBooking, hsel, hc]

/-- Witness for C9's amended claim at a concrete confirmed state. -/
theorem errorSurface_amended_witness :
    (startSystem ⟨false, 2, false⟩ (Except.error dashErr)).alerts
      = ["Failed to start system: " ++ errDetail dashErr] ∧
    (confirmBooking
        ⟨[], false, some ⟨"slot-1", SlotStatus.available, none, none,
          none, none, none, none, 1, none⟩, true, true⟩
        (Except.error dashErr) (Except.ok [])).alerts
      = ["❌ Booking failed: " ++ errDetail dashErr] := by
  have h := errorSurface_amended ⟨false, 2, false⟩
    ⟨[], false, some ⟨"slot-1", SlotStatus.available, none, none,
      none, none, none, none, 1, none⟩, true, true⟩
    ⟨[], [], false⟩
    ⟨"slot-1", SlotStatus.available, none, none, none, none, none,
      none, 1, none⟩
    dashErr (Except.ok []) (Except.ok []) (Except.ok []) rfl rfl
  exact ⟨h.1, h.2.2.2.1⟩
